import Mathlib

/-!
Verification of the `sys.exc_info` behaviour demonstrated by the notebook
`dynamic-scope.ipynb`.  The notebook contains six runnable snippets (cells 4,
6, 8, 10, 12 and 14) that print the value of the handled-error indicator
(`sys.exc_info()`) at various points, together with recorded transcripts.

The host interpreter mechanism being observed is not itself code of the
repository, so it is modelled here from the document: the notebook's prose
(cells 7, 9, 11 and 13) describes the save/set/restore discipline of `except`
blocks and the per-generator-frame exception state, and the recorded
transcripts pin the observable behaviour.  Traceback objects are abstracted
to the exception they describe (their heap addresses are per-run data).

Each snippet is transliterated statement by statement; generators become
explicit suspension-state machines whose `next` step threads the indicator.
-/

/-- The exception classes raised by the notebook's snippets. -/
inductive ExcClass
  | valueError
  | keyError
  | runtimeError
  | stopIteration
deriving DecidableEq

/-- An exception instance: its class and its constructor message. -/
structure Exc where
  cls : ExcClass
  msg : String
deriving DecidableEq

/-- The value of the handled-error indicator: `none` stands for the triple
`(None, None, None)`, `some e` for the triple describing `e` (class, instance,
traceback), with the traceback's heap address abstracted away. -/
abbrev ExcInfo := Option Exc

/-- One printed line: the literal label passed to `print` and the
`sys.exc_info()` value printed after it. -/
abbrev Line := String × ExcInfo

/-- `ValueError()` as raised by cells 4, 6, 8, 10, 12 and 14. -/
def valueErrorExc : Exc := ⟨ExcClass.valueError, ""⟩

/-- `KeyError()` as raised by cells 8, 10 and 14. -/
def keyErrorExc : Exc := ⟨ExcClass.keyError, ""⟩

/-- `RuntimeError("raise inside gen")` as raised by cell 12's generator. -/
def runtimeErrorExc : Exc := ⟨ExcClass.runtimeError, "raise inside gen"⟩

/-- `StopIteration()` raised when a generator body runs off its end. -/
def stopIterationExc : Exc := ⟨ExcClass.stopIteration, ""⟩

/-- Modelled from the spec: `sys.exc_info()` reads the interpreter-maintained
handled-error indicator of the current execution context. -/
def excInfoQuery (ts : ExcInfo) : ExcInfo := ts

/-- Modelled from the spec: entering an `except` block saves the indicator's
prior value and sets the indicator to the caught exception (the "invisible
lines" of cell 9's prose).  Returns the new indicator together with the saved
prior value, which the frame keeps for the block's exit. -/
def enterExcept (ts : ExcInfo) (e : Exc) : ExcInfo × ExcInfo := (some e, ts)

/-- Modelled from the spec: leaving an `except` block restores the value the
frame saved when the block was entered. -/
def exitExcept (saved : ExcInfo) : ExcInfo := saved

/-- Result of one `next(...)` call on a generator: the lines it printed, its
new suspension state, the indicator as the caller sees it after the call, and
the exception propagating out of the call, if any. -/
structure GenStep (σ : Type) where
  out : List Line
  st : σ
  ts : ExcInfo
  raised : ExcInfo
deriving DecidableEq

/-- Modelled from the spec: a bare `next(g)` lets any exception leaving the
generator (`StopIteration` included) propagate to the caller. -/
def nextBare {σ : Type} (r : GenStep σ) : Except Exc (GenStep σ) :=
  match r.raised with
  | none => Except.ok r
  | some e => Except.error e

/-- Modelled from the spec: `next(g, default)` suppresses the `StopIteration`
raised when the generator is exhausted; any other exception propagates. -/
def nextDefault {σ : Type} (r : GenStep σ) : Except Exc (GenStep σ) :=
  match r.raised with
  | none => Except.ok r
  | some e =>
      if e.cls = ExcClass.stopIteration then Except.ok { r with raised := none }
      else Except.error e

/-- Suspension states of cell 10's `gen` (`while True: print(...); yield`).
The frame never enters an `except` block of its own. -/
inductive Gen10State
  | created
  | suspended
deriving DecidableEq

/-- Cell 10's generator.  Its frame holds no exception state of its own, so
no swap happens on resumption: the query made inside the generator sees the
resuming context's indicator unchanged, and the caller's indicator is left
untouched. -/
def gen10_next (st : Gen10State) (callerTs : ExcInfo) : GenStep Gen10State :=
  match st with
  | .created => ⟨[("inside gen:", excInfoQuery callerTs)], .suspended, callerTs, none⟩
  | .suspended => ⟨[("inside gen:", excInfoQuery callerTs)], .suspended, callerTs, none⟩

/-- Suspension states of cell 12's `gen`: not yet started, or suspended at
the `yield` of the `while True` loop inside its `except` block, carrying the
frame's saved prior indicator and the frame's own exception state that is
swapped back in on resumption. -/
inductive Gen12State
  | created
  | suspendedInLoop (framesaved : ExcInfo) (gexc : Exc)
deriving DecidableEq

/-- Cell 12's generator: `raise RuntimeError("raise inside gen")`, then
`except:` with `while True: print("inside gen:", sys.exc_info()); yield`.
On the first call the frame enters its `except` block (saving the indicator
it started with and setting it to the `RuntimeError`); at every `yield` the
frame's exception state is stashed and the caller's indicator restored, and
every resumption swaps the stashed state back in. -/
def gen12_next (st : Gen12State) (callerTs : ExcInfo) : GenStep Gen12State :=
  match st with
  | .created =>
      let inner0 := callerTs
      let (inner1, framesaved) := enterExcept inner0 runtimeErrorExc
      ⟨[("inside gen:", excInfoQuery inner1)],
       .suspendedInLoop framesaved runtimeErrorExc, callerTs, none⟩
  | .suspendedInLoop framesaved gexc =>
      let inner := some gexc
      ⟨[("inside gen:", excInfoQuery inner)],
       .suspendedInLoop framesaved gexc, callerTs, none⟩

/-- Suspension states of cell 14's `gen` (the appendix): not yet started,
suspended at the `yield` inside its `except` block (carrying the frame's
saved prior indicator and the frame's own exception state), or exhausted. -/
inductive Gen14State
  | created
  | suspendedInExcept (framesaved : ExcInfo) (gexc : Exc)
  | finished
deriving DecidableEq

/-- Cell 14's generator: `raise KeyError`, `except:` containing `yield` then
`print("double-nested:", ...)`, and after the block
`print("single-nested again:", ...)` before the body ends.  The first call
enters the `except` block (saving the indicator the frame started with) and
suspends; the resumption swaps the frame's exception state back in, prints,
exits the block by restoring the frame-saved value — not whatever the
resuming caller is handling — prints again, and exhausts, raising
`StopIteration` while the caller's own indicator is left untouched. -/
def gen14_next (st : Gen14State) (callerTs : ExcInfo) : GenStep Gen14State :=
  match st with
  | .created =>
      let inner0 := callerTs
      let (_inner1, framesaved) := enterExcept inner0 keyErrorExc
      ⟨[], .suspendedInExcept framesaved keyErrorExc, callerTs, none⟩
  | .suspendedInExcept framesaved gexc =>
      let inner1 := some gexc
      let l1 : Line := ("double-nested:", excInfoQuery inner1)
      let inner2 := exitExcept framesaved
      let l2 : Line := ("single-nested again:", excInfoQuery inner2)
      ⟨[l1, l2], .finished, callerTs, some stopIterationExc⟩
  | .finished => ⟨[], .finished, callerTs, some stopIterationExc⟩

/-- Cell 4: print the indicator, `raise ValueError` caught by a bare
`except:` that prints the indicator, then print the indicator after the
block. -/
def cell4_trace : List Line :=
  let ts0 : ExcInfo := none
  let l1 : Line := ("no exceptions in progress:", excInfoQuery ts0)
  let (ts1, saved) := enterExcept ts0 valueErrorExc
  let l2 : Line := ("inside except: block:", excInfoQuery ts1)
  let ts2 := exitExcept saved
  let l3 : Line := ("after except: block:", excInfoQuery ts2)
  [l1, l2, l3]

/-- Cell 6's `subroutine`: a plain function call opens no handler of its own,
so the query made inside it sees the indicator of the dynamically enclosing
context unchanged. -/
def subroutine (ts : ExcInfo) : List Line :=
  [("in subroutine:", excInfoQuery ts)]

/-- Cell 6: `raise ValueError` caught by a bare `except:` whose body calls
`subroutine()`. -/
def cell6_trace : List Line :=
  let ts0 : ExcInfo := none
  let (ts1, _saved) := enterExcept ts0 valueErrorExc
  subroutine ts1

/-- Cell 8: a `raise KeyError` / `except:` nested inside the `except:` of a
`raise ValueError`, printing the indicator before, inside and after the inner
block. -/
def cell8_trace : List Line :=
  let ts0 : ExcInfo := none
  let (ts1, _saved0) := enterExcept ts0 valueErrorExc
  let l1 : Line := ("single-nested:", excInfoQuery ts1)
  let (ts2, saved1) := enterExcept ts1 keyErrorExc
  let l2 : Line := ("double-nested:", excInfoQuery ts2)
  let ts3 := exitExcept saved1
  let l3 : Line := ("single-nested again:", excInfoQuery ts3)
  [l1, l2, l3]

/-- Cell 10: iterate the handler-free generator from inside a `ValueError`
handler, then outside any handler, then from inside a `KeyError` handler. -/
def cell10_trace : List Line :=
  let ts0 : ExcInfo := none
  let (ts1, saved0) := enterExcept ts0 valueErrorExc
  let s1 := gen10_next Gen10State.created ts1
  let ts2 := exitExcept saved0
  let s2 := gen10_next s1.st ts2
  let (ts3, _saved1) := enterExcept s2.ts keyErrorExc
  let s3 := gen10_next s2.st ts3
  s1.out ++ s2.out ++ s3.out

/-- Cell 12: print the indicator, run the `RuntimeError` generator once,
print the indicator again, then `raise ValueError` and, from inside its
handler, print the indicator and run the generator again. -/
def cell12_trace : List Line :=
  let ts0 : ExcInfo := none
  let l1 : Line := ("outside gen, before first iteration:", excInfoQuery ts0)
  let s1 := gen12_next Gen12State.created ts0
  let l2 : Line := ("outside gen, after first iteration:", excInfoQuery s1.ts)
  let (ts1, _saved0) := enterExcept s1.ts valueErrorExc
  let l3 : Line := ("\noutside gen:", excInfoQuery ts1)
  let s2 := gen12_next s1.st ts1
  [l1] ++ s1.out ++ [l2, l3] ++ s2.out

/-- Cell 14 (appendix): run the `KeyError` generator to its first suspension
with `next(g)`, then `raise ValueError` and, from inside its handler, print
the indicator and exhaust the generator with `next(g, None)`. -/
def cell14_run : Except Exc (List Line) := do
  let s1 ← nextBare (gen14_next Gen14State.created none)
  let (ts1, _saved0) := enterExcept s1.ts valueErrorExc
  let l1 : Line := ("single-nested:", excInfoQuery ts1)
  let s2 ← nextDefault (gen14_next s1.st ts1)
  return s1.out ++ [l1] ++ s2.out

/-- The whole notebook session: the six snippets executed in order.  An
exception escaping any snippet would surface as an `Except.error`. -/
def session_run : Except Exc (List Line) := do
  let t14 ← cell14_run
  return cell4_trace ++ cell6_trace ++ cell8_trace ++ cell10_trace ++
    cell12_trace ++ t14

/-- The states of cell 12's generator reachable by some sequence of
`next(...)` calls made with arbitrary caller indicators. -/
inductive Gen12Reach : Gen12State → Prop
  | created : Gen12Reach Gen12State.created
  | step (st : Gen12State) (ts : ExcInfo) : Gen12Reach st → Gen12Reach (gen12_next st ts).st

/-- In every reachable suspended state of cell 12's generator, the frame's
own exception state is the `RuntimeError` it raised. -/
lemma gen12_reach_own_exc {st : Gen12State} (h : Gen12Reach st) :
    ∀ fs g, st = Gen12State.suspendedInLoop fs g → g = runtimeErrorExc := by
  induction h with
  | created => intro fs g hh; exact Gen12State.noConfusion hh
  | step st ts _h ih =>
      intro fs g hh
      cases st with
      | created =>
          simp only [gen12_next, enterExcept] at hh
          exact (Gen12State.suspendedInLoop.inj hh).2.symm
      | suspendedInLoop fs0 g0 =>
          have hg0 : g0 = runtimeErrorExc := ih fs0 g0 rfl
          simp only [gen12_next] at hh
          have := (Gen12State.suspendedInLoop.inj hh).2
          rw [← this, hg0]

/-- Claim C1: for the cell-12 generator that raises a `RuntimeError` and
yields inside its own `except` block, on every resumption — whatever the
resuming context's handled-error indicator is (empty, or a `ValueError`
being handled) — the `sys.exc_info()` query made inside the generator
reflects the generator's own `RuntimeError`. -/
theorem gen12_inside_always_runtimeError (st : Gen12State) (h : Gen12Reach st)
    (ts : ExcInfo) :
    (gen12_next st ts).out = [("inside gen:", some runtimeErrorExc)] := by
  cases st with
  | created => rfl
  | suspendedInLoop fs g =>
      have hg : g = runtimeErrorExc := gen12_reach_own_exc h fs g rfl
      subst hg; rfl

/-- Witness for C1: the generator suspended by its first iteration, resumed
while a `ValueError` is being handled, still reports its own `RuntimeError`. -/
theorem gen12_inside_always_runtimeError_witness :
    (gen12_next (gen12_next Gen12State.created none).st (some valueErrorExc)).out
      = [("inside gen:", some runtimeErrorExc)] :=
  gen12_inside_always_runtimeError (gen12_next Gen12State.created none).st
    (Gen12Reach.step Gen12State.created none Gen12Reach.created) (some valueErrorExc)

/-- Claim C2: resuming the cell-12 generator never changes the caller's
indicator, and in the recorded run of cell 12 no line printed outside the
generator shows the generator's internal `RuntimeError` — neither after the
first suspension nor while a `ValueError` is being handled. -/
theorem gen12_never_leaks_out :
    (∀ (st : Gen12State) (ts : ExcInfo), (gen12_next st ts).ts = ts) ∧
    (cell12_trace.all fun l => (l.1 == "inside gen:") ||
      !(l.2 == some runtimeErrorExc)) = true := by
  refine ⟨fun st ts => ?_, by decide⟩
  cases st <;> rfl

/-- Claim C3 counterexample: in the appendix snippet the generator's inner
`except` block exits while it is dynamically nested inside the outer
`ValueError` handler (the resumption comes from inside that handler), yet
the indicator does not revert to the outer block's error: the query after
the block prints `(None, None, None)`, not the `ValueError`. -/
theorem nested_revert_across_generator_cex :
    (gen14_next Gen14State.created none).st
      = Gen14State.suspendedInExcept none keyErrorExc ∧
    ((gen14_next (Gen14State.suspendedInExcept none keyErrorExc)
        (some valueErrorExc)).out).getLast?
      = some ("single-nested again:", none) ∧
    ((gen14_next (Gen14State.suspendedInExcept none keyErrorExc)
        (some valueErrorExc)).out).getLast?
      ≠ some ("single-nested again:", some valueErrorExc) := by decide

/-- Claim C3 (amended): after execution leaves a handling block the
indicator reverts to the value its own frame saved when the block was
entered: empty if nothing enclosed it at entry, and the outer block's error
for a block nested inside another handler of the same frame (cell 8).  When
the block lives in a generator frame, the revert is to the generator frame's
saved prior value, even if the resuming caller is handling a different
exception (cell 14). -/
theorem exceptBlock_revert_frame_local :
    (∀ (ts : ExcInfo) (e : Exc), exitExcept (enterExcept ts e).2 = ts) ∧
    cell8_trace = [("single-nested:", some valueErrorExc),
      ("double-nested:", some keyErrorExc),
      ("single-nested again:", some valueErrorExc)] ∧
    (∀ (fs : ExcInfo) (g : Exc) (cts : ExcInfo),
      ((gen14_next (Gen14State.suspendedInExcept fs g) cts).out).getLast?
        = some ("single-nested again:", fs)) :=
  ⟨fun _ _ => rfl, by decide, fun _ _ _ => rfl⟩

/-- Claim C4: outside any error-handling block — before any exception has
been raised and again after the `except` block of cell 4 has completed —
querying the indicator yields the empty value `(None, None, None)`. -/
theorem excInfo_empty_outside_handlers :
    cell4_trace.head? = some ("no exceptions in progress:", none) ∧
    cell4_trace.getLast? = some ("after except: block:", none) := by decide

/-- Claim C5: immediately inside cell 4's `except` block the indicator is
the triple describing exactly the `ValueError` caught by that block. -/
theorem excInfo_inside_except_reflects_caught :
    cell4_trace[1]? = some ("inside except: block:", some valueErrorExc) := by
  decide

/-- Claim C6: a query made from a subroutine invoked inside an `except`
block reports the indicator of the dynamically enclosing context unchanged,
so cell 6's `subroutine` still reflects the `ValueError` being handled by
its caller's block. -/
theorem subroutine_sees_caller_handler :
    (∀ ts : ExcInfo, subroutine ts = [("in subroutine:", ts)]) ∧
    cell6_trace = [("in subroutine:", some valueErrorExc)] :=
  ⟨fun _ => rfl, by decide⟩

/-- Claim C8: running the whole session produces all six transcripts with no
uncaught exception escaping any snippet; in particular the appendix
generator's exhaustion does raise a `StopIteration`, which `next(g, None)`
suppresses. -/
theorem session_no_uncaught_escape :
    session_run = Except.ok
      [("no exceptions in progress:", none),
       ("inside except: block:", some valueErrorExc),
       ("after except: block:", none),
       ("in subroutine:", some valueErrorExc),
       ("single-nested:", some valueErrorExc),
       ("double-nested:", some keyErrorExc),
       ("single-nested again:", some valueErrorExc),
       ("inside gen:", some valueErrorExc),
       ("inside gen:", none),
       ("inside gen:", some keyErrorExc),
       ("outside gen, before first iteration:", none),
       ("inside gen:", some runtimeErrorExc),
       ("outside gen, after first iteration:", none),
       ("\noutside gen:", some valueErrorExc),
       ("inside gen:", some runtimeErrorExc),
       ("single-nested:", some valueErrorExc),
       ("double-nested:", some keyErrorExc),
       ("single-nested again:", none)] ∧
    (gen14_next (Gen14State.suspendedInExcept none keyErrorExc)
      (some valueErrorExc)).raised = some stopIterationExc := ⟨rfl, rfl⟩

/-- Claim C9: the handler-free generator of cell 10 latches nothing: at
every resumption the query inside it returns exactly the resuming context's
indicator at that moment, so across cell 10's run it sees the `ValueError`,
then empty, then the `KeyError`. -/
theorem gen10_follows_resuming_context :
    (∀ (st : Gen10State) (ts : ExcInfo), (gen10_next st ts).out
      = [("inside gen:", ts)]) ∧
    cell10_trace = [("inside gen:", some valueErrorExc), ("inside gen:", none),
      ("inside gen:", some keyErrorExc)] := by
  refine ⟨fun st ts => ?_, by decide⟩
  cases st <;> rfl

/-- Claim C10: in the appendix, the generator suspended inside its `KeyError`
handler, when resumed to completion from inside the outer `ValueError`
handler, prints `(None, None, None)` after its inner block exits instead of
reverting to the outer `ValueError` — the outer handler's context is lost
inside the generator. -/
theorem gen14_outer_context_lost_inside_gen :
    (gen14_next Gen14State.created none).st
      = Gen14State.suspendedInExcept none keyErrorExc ∧
    (gen14_next (Gen14State.suspendedInExcept none keyErrorExc)
        (some valueErrorExc)).out
      = [("double-nested:", some keyErrorExc),
         ("single-nested again:", none)] := by decide
